import Mathlib

/-!
Shallow embedding of the `EscapeVelocityGameFHE` Solidity contract
(contracts/escapeVelocityGameFHE.sol) and proofs about its batch lifecycle,
access control, submission protocol and asynchronous decryption-oracle
protocol.

Modelling conventions:
* Addresses, timestamps, player ids and request ids are `Nat`.
* A ciphertext handle (`euint32` / `ebool`) is a term of the inductive type
  `CT`: the FHEVM coprocessor derives handles deterministically from the
  operation and its operand handles, so equal terms model equal `bytes32`
  handles and distinct terms model distinct handles.  `CT.uninit` is the
  all-zero default handle, the only one `FHE.isInitialized` rejects.
* `keccak256(abi.encode(cts, address(this)))` is modelled as an injective
  fingerprint `Digest.keccak cts addr`; `Digest.zero` is the `bytes32(0)`
  default stored in an untouched mapping slot.
* Each external function takes the caller (`msg.sender`), the block
  timestamp where the source reads it, and returns an `Outcome`: the
  resulting storage, the emitted events, and `some e` when the source
  reverts with error `e`.  State mutations are performed in source order,
  so `Outcome.state` differing from the pre-state on an error would expose
  a write that precedes a failed check.
* The results of the external FHEVM services — the request id minted by
  `FHE.requestDecryption` and the verdict of `FHE.checkSignatures` — are
  inputs of the corresponding operations, and the decoded cleartext words
  of the callback are passed as the three decoded values.
-/

/-- Ciphertext handles: terms of the FHEVM symbolic ciphertext algebra.
`enc n` is `FHE.asEuint32(n)` (trivial encryption), `add`/`mul`/`ge` are the
homomorphic operations, `ext id` is an externally produced input handle,
and `uninit` is the uninitialized (zero) handle. -/
inductive CT where
  | uninit : CT
  | enc (n : Nat) : CT
  | add (a b : CT) : CT
  | mul (a b : CT) : CT
  | ge (a b : CT) : CT
  | ext (id : Nat) : CT
deriving DecidableEq, Repr

/-- `FHE.isInitialized`: false exactly on the zero handle. -/
def CT.isInit : CT → Bool
  | .uninit => false
  | _ => true

/-- 2^32, the modulus of `euint32` plaintexts. -/
def W32 : Nat := 2 ^ 32

/-- Reference plaintext semantics of the ciphertext engine (spec §6): the
value carried by a handle, given an environment assigning plaintexts to
external input handles.  Arithmetic is over encrypted 32-bit unsigned
values; `ge` yields the encrypted boolean 1 or 0. -/
def evalCT (env : Nat → Nat) : CT → Nat
  | .uninit => 0
  | .enc n => n % W32
  | .add a b => (evalCT env a + evalCT env b) % W32
  | .mul a b => (evalCT env a * evalCT env b) % W32
  | .ge a b => if evalCT env b ≤ evalCT env a then 1 else 0
  | .ext i => env i % W32

/-- A `bytes32` digest value: either the `bytes32(0)` default of an
untouched storage slot, or the keccak fingerprint of an encoded ciphertext
list together with the hashing contract's address (collision-free model of
`keccak256`). -/
inductive Digest where
  | zero : Digest
  | keccak (cts : List CT) (addr : Nat) : Digest
deriving DecidableEq, Repr

/-- The modelled contract instance's own address (`address(this)`),
constant for the single deployed instance under study. -/
def selfAddr : Nat := 1

/-- `_hashCiphertexts`: `keccak256(abi.encode(cts, address(this)))`. -/
def hashCiphertexts (cts : List CT) : Digest :=
  Digest.keccak cts selfAddr

/-- The `DecryptionContext` struct. -/
structure DecryptionContext where
  batchId : Nat
  stateHash : Digest
  processed : Bool
deriving DecidableEq, Repr

/-- Default value of an untouched `decryptionContexts` mapping slot. -/
def emptyContext : DecryptionContext :=
  { batchId := 0, stateHash := Digest.zero, processed := false }

/-- The contract's storage. -/
structure ContractState where
  owner : Nat
  providers : Nat → Bool
  paused : Bool
  cooldownSeconds : Nat
  lastSubmissionTime : Nat → Nat
  lastDecryptionRequestTime : Nat → Nat
  decryptionContexts : Nat → DecryptionContext
  currentBatchId : Nat
  batchOpen : Bool
  encryptedPlayerWealth : Nat → CT
  encryptedEscapeVelocityThreshold : CT
  encryptedBaseWealth : CT
  encryptedBaseThreshold : CT
  encryptedThresholdGrowthRate : CT

/-- Point update of a storage mapping. -/
def setMap {α : Type} (m : Nat → α) (k : Nat) (v : α) : Nat → α :=
  fun k' => if k' = k then v else m k'

/-- The contract's custom errors. -/
inductive Err where
  | NotOwner | NotProvider | Paused | CooldownActive | BatchNotOpen
  | InvalidParameters | ReplayAttempt | StateMismatch | InvalidProof
  | NotInitialized
deriving DecidableEq, Repr

/-- The contract's events. -/
inductive Event where
  | OwnershipTransferred (oldOwner newOwner : Nat)
  | ProviderAdded (provider : Nat)
  | ProviderRemoved (provider : Nat)
  | ContractPaused
  | ContractUnpaused
  | CooldownSecondsUpdated (oldCooldown newCooldown : Nat)
  | BatchOpened (batchId : Nat)
  | BatchClosed (batchId : Nat)
  | WealthSubmitted (provider playerId : Nat) (encryptedWealth : CT)
  | DecryptionRequested (requestId batchId : Nat)
  | DecryptionCompleted (requestId batchId playerWealth escapeVelocityThreshold : Nat)
      (playerEscaped : Bool)
deriving DecidableEq, Repr

/-- Result of one external call: post-storage, emitted events, and the
revert error if the call failed. -/
structure Outcome where
  state : ContractState
  events : List Event
  err : Option Err

/-- Storage right after the constructor runs with `deployer` as
`msg.sender`. -/
def initialState (deployer : Nat) : ContractState :=
  { owner := deployer
    providers := fun a => a == deployer
    paused := false
    cooldownSeconds := 30
    lastSubmissionTime := fun _ => 0
    lastDecryptionRequestTime := fun _ => 0
    decryptionContexts := fun _ => emptyContext
    currentBatchId := 0
    batchOpen := false
    encryptedPlayerWealth := fun _ => CT.uninit
    encryptedEscapeVelocityThreshold := CT.uninit
    encryptedBaseWealth := CT.uninit
    encryptedBaseThreshold := CT.uninit
    encryptedThresholdGrowthRate := CT.uninit }

/-- `transferOwnership(newOwner)`: `onlyOwner`. -/
def transferOwnership (st : ContractState) (sender newOwner : Nat) : Outcome :=
  if sender ≠ st.owner then ⟨st, [], some .NotOwner⟩
  else
    ⟨{ st with owner := newOwner },
      [.OwnershipTransferred st.owner newOwner], none⟩

/-- `addProvider(provider)`: `onlyOwner`. -/
def addProvider (st : ContractState) (sender provider : Nat) : Outcome :=
  if sender ≠ st.owner then ⟨st, [], some .NotOwner⟩
  else
    ⟨{ st with providers := setMap st.providers provider true },
      [.ProviderAdded provider], none⟩

/-- `removeProvider(provider)`: `onlyOwner`. -/
def removeProvider (st : ContractState) (sender provider : Nat) : Outcome :=
  if sender ≠ st.owner then ⟨st, [], some .NotOwner⟩
  else
    ⟨{ st with providers := setMap st.providers provider false },
      [.ProviderRemoved provider], none⟩

/-- `pause()`: `onlyOwner whenNotPaused`. -/
def pause (st : ContractState) (sender : Nat) : Outcome :=
  if sender ≠ st.owner then ⟨st, [], some .NotOwner⟩
  else if st.paused then ⟨st, [], some .Paused⟩
  else ⟨{ st with paused := true }, [.ContractPaused], none⟩

/-- `unpause()`: `onlyOwner` (no paused guard). -/
def unpause (st : ContractState) (sender : Nat) : Outcome :=
  if sender ≠ st.owner then ⟨st, [], some .NotOwner⟩
  else ⟨{ st with paused := false }, [.ContractUnpaused], none⟩

/-- `setCooldownSeconds(newCooldownSeconds)`: `onlyOwner`, rejects zero. -/
def setCooldownSeconds (st : ContractState) (sender newCooldownSeconds : Nat) : Outcome :=
  if sender ≠ st.owner then ⟨st, [], some .NotOwner⟩
  else if newCooldownSeconds = 0 then ⟨st, [], some .InvalidParameters⟩
  else
    ⟨{ st with cooldownSeconds := newCooldownSeconds },
      [.CooldownSecondsUpdated st.cooldownSeconds newCooldownSeconds], none⟩

/-- `_calculateInitialThreshold()`:
`encryptedBaseThreshold + encryptedThresholdGrowthRate * asEuint32(currentBatchId)`
after requiring both operands initialized. -/
def calculateInitialThreshold (st : ContractState) : Except Err CT :=
  if ¬ st.encryptedBaseThreshold.isInit then .error .NotInitialized
  else if ¬ st.encryptedThresholdGrowthRate.isInit then .error .NotInitialized
  else .ok (CT.add st.encryptedBaseThreshold
      (CT.mul st.encryptedThresholdGrowthRate (CT.enc st.currentBatchId)))

/-- `openBatch()`: `onlyOwner whenNotPaused`; increments the batch id only
when a batch is already open, then (re)initializes the encrypted base
constants and recomputes the escape-velocity threshold. -/
def openBatch (st : ContractState) (sender : Nat) : Outcome :=
  if sender ≠ st.owner then ⟨st, [], some .NotOwner⟩
  else if st.paused then ⟨st, [], some .Paused⟩
  else
    let st1 := if st.batchOpen then { st with currentBatchId := st.currentBatchId + 1 } else st
    let st2 := { st1 with
      batchOpen := true
      encryptedBaseWealth := CT.enc 100
      encryptedBaseThreshold := CT.enc 1000
      encryptedThresholdGrowthRate := CT.enc 50 }
    match calculateInitialThreshold st2 with
    | .error e => ⟨st2, [], some e⟩
    | .ok th =>
        ⟨{ st2 with encryptedEscapeVelocityThreshold := th },
          [.BatchOpened st2.currentBatchId], none⟩

/-- `closeBatch()`: `onlyOwner whenNotPaused`; requires an open batch and
only clears the open flag. -/
def closeBatch (st : ContractState) (sender : Nat) : Outcome :=
  if sender ≠ st.owner then ⟨st, [], some .NotOwner⟩
  else if st.paused then ⟨st, [], some .Paused⟩
  else if ¬ st.batchOpen then ⟨st, [], some .BatchNotOpen⟩
  else ⟨{ st with batchOpen := false }, [.BatchClosed st.currentBatchId], none⟩

/-- `submitPlayerWealth(playerId, encryptedWealth)`:
`onlyProvider whenNotPaused checkSubmissionCooldown(msg.sender)`, then
requires an open batch and an initialized handle; overwrites the player's
ciphertext and stamps the provider's submission time. -/
def submitPlayerWealth (st : ContractState) (sender now playerId : Nat)
    (encryptedWealth : CT) : Outcome :=
  if ¬ st.providers sender then ⟨st, [], some .NotProvider⟩
  else if st.paused then ⟨st, [], some .Paused⟩
  else if now < st.lastSubmissionTime sender + st.cooldownSeconds then
    ⟨st, [], some .CooldownActive⟩
  else if ¬ st.batchOpen then ⟨st, [], some .BatchNotOpen⟩
  else if ¬ encryptedWealth.isInit then ⟨st, [], some .NotInitialized⟩
  else
    ⟨{ st with
        encryptedPlayerWealth := setMap st.encryptedPlayerWealth playerId encryptedWealth
        lastSubmissionTime := setMap st.lastSubmissionTime sender now },
      [.WealthSubmitted sender playerId encryptedWealth], none⟩

/-- `requestEscapeCheck(playerId)`:
`whenNotPaused checkDecryptionCooldown(msg.sender)`, then requires an open
batch and initialized player wealth and threshold; snapshots
`[wealth, threshold, wealth >= threshold]`, hashes it, records the
`DecryptionContext` under the request id minted by `FHE.requestDecryption`
and stamps the caller's request time. -/
def requestEscapeCheck (st : ContractState) (sender now playerId requestId : Nat) : Outcome :=
  if st.paused then ⟨st, [], some .Paused⟩
  else if now < st.lastDecryptionRequestTime sender + st.cooldownSeconds then
    ⟨st, [], some .CooldownActive⟩
  else if ¬ st.batchOpen then ⟨st, [], some .BatchNotOpen⟩
  else if ¬ (st.encryptedPlayerWealth playerId).isInit then ⟨st, [], some .NotInitialized⟩
  else if ¬ st.encryptedEscapeVelocityThreshold.isInit then ⟨st, [], some .NotInitialized⟩
  else
    ⟨{ st with
        decryptionContexts := setMap st.decryptionContexts requestId
          { batchId := st.currentBatchId
            stateHash := hashCiphertexts
              [st.encryptedPlayerWealth playerId,
               st.encryptedEscapeVelocityThreshold,
               CT.ge (st.encryptedPlayerWealth playerId) st.encryptedEscapeVelocityThreshold]
            processed := false }
        lastDecryptionRequestTime := setMap st.lastDecryptionRequestTime sender now },
      [.DecryptionRequested requestId st.currentBatchId], none⟩

/-- The `currentStateHash` the callback recomputes for `requestId` from
current storage: the source reads the player-wealth slot at index
`context.batchId` (its own comment: "Placeholder, actual player ID would
be needed"). -/
def callbackRecomputedHash (st : ContractState) (requestId : Nat) : Digest :=
  hashCiphertexts
    [st.encryptedPlayerWealth (st.decryptionContexts requestId).batchId,
     st.encryptedEscapeVelocityThreshold,
     CT.ge (st.encryptedPlayerWealth (st.decryptionContexts requestId).batchId)
       st.encryptedEscapeVelocityThreshold]

/-- `myCallback(requestId, cleartexts, proof)`: public, no modifiers.
Rejects replays, recomputes the snapshot digest
(`callbackRecomputedHash`), compares it with the stored one, checks the
proof (`proofOk` is the verdict of `FHE.checkSignatures`), then marks the
context processed and emits the decoded cleartext words (`wealthClear`,
`thresholdClear`, `escapedClear`). -/
def myCallback (st : ContractState) (sender requestId : Nat)
    (wealthClear thresholdClear : Nat) (escapedClear : Bool) (proofOk : Bool) : Outcome :=
  if (st.decryptionContexts requestId).processed then ⟨st, [], some .ReplayAttempt⟩
  else if callbackRecomputedHash st requestId ≠ (st.decryptionContexts requestId).stateHash then
    ⟨st, [], some .StateMismatch⟩
  else if ¬ proofOk then ⟨st, [], some .InvalidProof⟩
  else
    ⟨{ st with
        decryptionContexts := setMap st.decryptionContexts requestId
          { st.decryptionContexts requestId with processed := true } },
      [.DecryptionCompleted requestId (st.decryptionContexts requestId).batchId
        wealthClear thresholdClear escapedClear], none⟩

/-- Scenario: deployer 0 opens the first batch (id 0). -/
def stOpen : ContractState := (openBatch (initialState 0) 0).state

/-- Scenario: provider 0 then submits wealth handle `ext 42` for player 1
at time 30. -/
def stSub1 : ContractState := (submitPlayerWealth stOpen 0 30 1 (CT.ext 42)).state

/-- Scenario: caller 0 then requests an escape check for player 1 at time
30; the engine mints request id 7. -/
def stReq1 : ContractState := (requestEscapeCheck stSub1 0 30 1 7).state

/-- Claim C1: the spec demands the callback recompute the snapshot from
the wealth slot of the same player id that `requestEscapeCheck`
snapshotted.  The code instead reads `encryptedPlayerWealth[context.batchId]`
(its own comment calls this a placeholder).  Concrete run: open batch 0,
submit wealth `ext 42` for player 1, request an escape check for player 1
(request id 7), then deliver an honest callback with a valid proof while
no state changed in between: the recomputation reads slot 0 (the batch
id), which is uninitialized rather than player 1's handle, so the digests
differ and the callback reverts with `StateMismatch` instead of
succeeding. -/
theorem claim1_callback_recomputes_from_batch_id_slot :
    stReq1.encryptedPlayerWealth 1 = CT.ext 42 ∧
    (stReq1.decryptionContexts 7).batchId = 0 ∧
    stReq1.encryptedPlayerWealth ((stReq1.decryptionContexts 7).batchId) = CT.uninit ∧
    (stReq1.decryptionContexts 7).stateHash
      = hashCiphertexts [CT.ext 42, stReq1.encryptedEscapeVelocityThreshold,
          CT.ge (CT.ext 42) stReq1.encryptedEscapeVelocityThreshold] ∧
    callbackRecomputedHash stReq1 7
      = hashCiphertexts [CT.uninit, stReq1.encryptedEscapeVelocityThreshold,
          CT.ge CT.uninit stReq1.encryptedEscapeVelocityThreshold] ∧
    (myCallback stReq1 9 7 100 1000 false true).err = some Err.StateMismatch := by
  refine ⟨rfl, rfl, rfl, rfl, rfl, ?_⟩
  decide

/-- Claim C3: whenever the recomputed snapshot digest differs from the
`stateHash` stored in the request's `DecryptionContext` (and the context
is not already processed, which is decided first), the callback reverts
with `StateMismatch` for either proof verdict, mutating nothing and
emitting nothing. -/
theorem claim3_digest_mismatch_always_state_mismatch (st : ContractState)
    (sender requestId wealthClear thresholdClear : Nat) (escapedClear proofOk : Bool)
    (hproc : (st.decryptionContexts requestId).processed = false)
    (hdiff : callbackRecomputedHash st requestId ≠ (st.decryptionContexts requestId).stateHash) :
    myCallback st sender requestId wealthClear thresholdClear escapedClear proofOk
      = ⟨st, [], some Err.StateMismatch⟩ := by
  unfold myCallback
  rw [hproc]
  simp [hdiff]

/-- Witness for C3: at the freshly deployed contract, request id 5 was
never issued, so its stored hash is the zero digest while the recomputed
digest is a keccak fingerprint; the callback fails with `StateMismatch`
even though the supplied proof verifies. -/
theorem claim3_witness :
    (myCallback (initialState 0) 9 5 100 1000 false true).err = some Err.StateMismatch := by
  rw [claim3_digest_mismatch_always_state_mismatch (initialState 0) 9 5 100 1000 false true
    (by decide) (by decide)]

/-- Claim C10: `myCallback` has no access control and no pause gate — its
outcome is the same for every caller, and flipping the pause flag changes
neither the error, nor the events, nor the storage written (beyond the
pause flag itself). -/
theorem claim10_callback_caller_and_pause_independent
    (st : ContractState) (sender1 sender2 requestId wealthClear thresholdClear : Nat)
    (escapedClear proofOk : Bool) (b : Bool) :
    myCallback st sender1 requestId wealthClear thresholdClear escapedClear proofOk
      = myCallback st sender2 requestId wealthClear thresholdClear escapedClear proofOk ∧
    (myCallback { st with paused := b } sender1 requestId wealthClear thresholdClear
        escapedClear proofOk).err
      = (myCallback st sender1 requestId wealthClear thresholdClear escapedClear proofOk).err ∧
    (myCallback { st with paused := b } sender1 requestId wealthClear thresholdClear
        escapedClear proofOk).events
      = (myCallback st sender1 requestId wealthClear thresholdClear escapedClear proofOk).events ∧
    (myCallback { st with paused := b } sender1 requestId wealthClear thresholdClear
        escapedClear proofOk).state
      = { (myCallback st sender1 requestId wealthClear thresholdClear escapedClear
            proofOk).state with paused := b } := by
  refine ⟨rfl, ?_, ?_, ?_⟩ <;>
    · unfold myCallback callbackRecomputedHash
      split_ifs <;> rfl

/-- Scenario: provider 0 submits wealth handle `ext 42` for player 0 at
time 30 (player id 0 coincides with the batch id, so the callback's
recomputation reads the right slot and the happy path is reachable). -/
def stSub0 : ContractState := (submitPlayerWealth stOpen 0 30 0 (CT.ext 42)).state

/-- Scenario: caller 0 requests an escape check for player 0 at time 30;
the engine mints request id 7. -/
def stReq0 : ContractState := (requestEscapeCheck stSub0 0 30 0 7).state

/-- Claim C2: once a callback for a request id succeeds — marking the
context processed and emitting the completed event — every further
callback for the same request id reverts with `ReplayAttempt`, mutating
nothing and emitting nothing. -/
theorem claim2_callback_accepted_at_most_once (st : ContractState)
    (sender requestId wealthClear thresholdClear : Nat) (escapedClear proofOk : Bool)
    (h : (myCallback st sender requestId wealthClear thresholdClear escapedClear
        proofOk).err = none) :
    ((myCallback st sender requestId wealthClear thresholdClear escapedClear
        proofOk).state.decryptionContexts requestId).processed = true ∧
    (myCallback st sender requestId wealthClear thresholdClear escapedClear proofOk).events
      = [Event.DecryptionCompleted requestId (st.decryptionContexts requestId).batchId
          wealthClear thresholdClear escapedClear] ∧
    ∀ sender2 wealthClear2 thresholdClear2 : Nat, ∀ escapedClear2 proofOk2 : Bool,
      myCallback (myCallback st sender requestId wealthClear thresholdClear escapedClear
          proofOk).state sender2 requestId wealthClear2 thresholdClear2 escapedClear2 proofOk2
        = ⟨(myCallback st sender requestId wealthClear thresholdClear escapedClear
            proofOk).state, [], some Err.ReplayAttempt⟩ := by
  unfold myCallback at h ⊢
  split_ifs at h with h1 h2 h3
  all_goals simp_all [setMap]

/-- Witness for C2: the happy-path callback for request id 7 succeeds,
after which a second identical callback reverts with `ReplayAttempt`. -/
theorem claim2_witness :
    ((myCallback stReq0 9 7 100 1000 false true).state.decryptionContexts 7).processed
      = true ∧
    (myCallback (myCallback stReq0 9 7 100 1000 false true).state 11 7 100 1000 false
        true).err = some Err.ReplayAttempt := by
  have h := claim2_callback_accepted_at_most_once stReq0 9 7 100 1000 false true (by decide)
  exact ⟨h.1, by rw [h.2.2 11 100 1000 false true]⟩

/-- Scenario: the owner pauses the freshly deployed contract. -/
def stPaused : ContractState := (pause (initialState 0) 0).state

/-- Counterexample for C4: with the contract paused, `transferOwnership`
is a mutating operation other than unpause, yet it succeeds and reassigns
the owner — the source's `transferOwnership` has no `whenNotPaused`
modifier. -/
theorem claim4_counterexample :
    stPaused.paused = true ∧
    (transferOwnership stPaused 0 7).err = none ∧
    (transferOwnership stPaused 0 7).state.owner = 7 ∧
    (transferOwnership stPaused 0 7).events = [Event.OwnershipTransferred 0 7] := by
  exact ⟨rfl, rfl, rfl, rfl⟩

/-- Claim C4 (amended): while paused, exactly the batch and oracle entry
points — `openBatch`, `closeBatch`, `submitPlayerWealth`,
`requestEscapeCheck` — and `pause` itself are rejected with no state
change; ownership transfer, provider addition/removal, cooldown
configuration and `unpause` still succeed for the owner, and the
decryption callback's verdict ignores the pause flag entirely. -/
theorem claim4_pause_blocks_only_batch_and_oracle_entry_points
    (st : ContractState) (hp : st.paused = true)
    (sender now playerId requestId newOwner addr n wealthClear thresholdClear : Nat)
    (w : CT) (escapedClear proofOk : Bool) :
    ((openBatch st sender).err.isSome = true ∧ (openBatch st sender).state = st ∧
      (openBatch st sender).events = []) ∧
    ((closeBatch st sender).err.isSome = true ∧ (closeBatch st sender).state = st ∧
      (closeBatch st sender).events = []) ∧
    ((submitPlayerWealth st sender now playerId w).err.isSome = true ∧
      (submitPlayerWealth st sender now playerId w).state = st ∧
      (submitPlayerWealth st sender now playerId w).events = []) ∧
    ((requestEscapeCheck st sender now playerId requestId).err = some Err.Paused ∧
      (requestEscapeCheck st sender now playerId requestId).state = st ∧
      (requestEscapeCheck st sender now playerId requestId).events = []) ∧
    ((pause st sender).err.isSome = true ∧ (pause st sender).state = st) ∧
    (sender = st.owner →
      (transferOwnership st sender newOwner).err = none ∧
      (addProvider st sender addr).err = none ∧
      (removeProvider st sender addr).err = none ∧
      (n ≠ 0 → (setCooldownSeconds st sender n).err = none) ∧
      (unpause st sender).err = none) ∧
    (myCallback st sender requestId wealthClear thresholdClear escapedClear proofOk).err
      = (myCallback { st with paused := false } sender requestId wealthClear
          thresholdClear escapedClear proofOk).err := by
  refine ⟨?_, ?_, ?_, ?_, ?_, ?_, ?_⟩
  · unfold openBatch
    by_cases hs : sender ≠ st.owner
    · simp [hs]
    · simp [hs, hp]
  · unfold closeBatch
    by_cases hs : sender ≠ st.owner
    · simp [hs]
    · simp [hs, hp]
  · unfold submitPlayerWealth
    by_cases hpr : st.providers sender
    · simp [hpr, hp]
    · simp [hpr]
  · unfold requestEscapeCheck
    simp [hp]
  · unfold pause
    by_cases hs : sender ≠ st.owner
    · simp [hs]
    · simp [hs, hp]
  · intro hs
    unfold transferOwnership addProvider removeProvider setCooldownSeconds unpause
    refine ⟨by simp [hs], by simp [hs], by simp [hs], fun hn => by simp [hs, hn], by simp [hs]⟩
  · unfold myCallback callbackRecomputedHash
    split_ifs <;> rfl

/-- Witness for C4 (amended): at the concrete paused contract, `openBatch`
is rejected, `requestEscapeCheck` reverts with `Paused`, and `unpause` by
the owner succeeds. -/
theorem claim4_witness :
    (openBatch stPaused 0).err.isSome = true ∧
    (requestEscapeCheck stPaused 0 99 1 7).err = some Err.Paused ∧
    (unpause stPaused 0).err = none := by
  have h := claim4_pause_blocks_only_batch_and_oracle_entry_points stPaused rfl
    0 99 1 7 7 3 5 0 0 CT.uninit false false
  exact ⟨h.1.1, h.2.2.2.1.1, (h.2.2.2.2.2.1 rfl).2.2.2.2⟩

/-- Scenario: the owner closes batch 0. -/
def stClosed : ContractState := (closeBatch stOpen 0).state

/-- Counterexample for C5: batch 0 is opened and then closed; the next
`openBatch` keeps `currentBatchId = 0` — it does not advance past 0,
because the source only increments the id when a batch is still open at
the time of the call. -/
theorem claim5_counterexample :
    stOpen.batchOpen = true ∧ stOpen.currentBatchId = 0 ∧
    (closeBatch stOpen 0).err = none ∧
    (openBatch stClosed 0).err = none ∧
    (openBatch stClosed 0).state.currentBatchId = 0 ∧
    ¬ 0 < (openBatch stClosed 0).state.currentBatchId := by
  refine ⟨rfl, rfl, rfl, rfl, rfl, ?_⟩
  decide

/-- Claim C5 (amended): `closeBatch` never changes the batch id, and the
id advance happens only when `openBatch` is called while a batch is still
open (implicit close-and-reopen); after a `closeBatch`, the next
`openBatch` reopens with the same id. -/
theorem claim5_close_keeps_id_and_reopen_does_not_advance
    (st : ContractState) (sender : Nat) :
    (closeBatch st sender).state.currentBatchId = st.currentBatchId ∧
    (st.batchOpen = false →
      (openBatch st sender).state.currentBatchId = st.currentBatchId) ∧
    (st.batchOpen = true → (openBatch st sender).err = none →
      (openBatch st sender).state.currentBatchId = st.currentBatchId + 1) := by
  refine ⟨?_, ?_, ?_⟩
  · unfold closeBatch
    split_ifs <;> rfl
  · intro hb
    unfold openBatch
    split_ifs <;> simp_all [calculateInitialThreshold, CT.isInit]
  · intro hb he
    unfold openBatch at he ⊢
    split_ifs at he ⊢ <;> simp_all [calculateInitialThreshold, CT.isInit]

/-- Witness for C5 (amended): reopening after the concrete close keeps id
0, while reopening while batch 0 is still open advances to id 1. -/
theorem claim5_witness :
    (openBatch stClosed 0).state.currentBatchId = stClosed.currentBatchId ∧
    (openBatch stOpen 0).state.currentBatchId = stOpen.currentBatchId + 1 := by
  have hc := claim5_close_keeps_id_and_reopen_does_not_advance stClosed 0
  have ho := claim5_close_keeps_id_and_reopen_does_not_advance stOpen 0
  exact ⟨hc.2.1 rfl, ho.2.2 rfl (by decide)⟩

/-- Claim C6: if `openBatch` succeeds, an immediately repeated `openBatch`
succeeds, increases the batch id by exactly one, and recomputes the
threshold for the new id; and `closeBatch` while no batch is open always
fails — with `BatchNotOpen` once past the owner/pause guards — and
mutates no state. -/
theorem claim6_reopen_increments_and_close_closed_fails
    (st : ContractState) (sender : Nat) :
    ((openBatch st sender).err = none →
      (openBatch (openBatch st sender).state sender).err = none ∧
      (openBatch (openBatch st sender).state sender).state.currentBatchId
        = (openBatch st sender).state.currentBatchId + 1 ∧
      (openBatch (openBatch st sender).state sender).state.encryptedEscapeVelocityThreshold
        = CT.add (CT.enc 1000) (CT.mul (CT.enc 50)
            (CT.enc ((openBatch st sender).state.currentBatchId + 1)))) ∧
    (st.batchOpen = false →
      (closeBatch st sender).err.isSome = true ∧
      (closeBatch st sender).state = st ∧
      (closeBatch st sender).events = [] ∧
      (sender = st.owner → st.paused = false →
        (closeBatch st sender).err = some Err.BatchNotOpen)) := by
  constructor
  · intro he
    unfold openBatch at he ⊢
    split_ifs at he ⊢ <;> simp_all [calculateInitialThreshold, CT.isInit]
  · intro hb
    unfold closeBatch
    split_ifs <;> simp_all

/-- Witness for C6: opening twice from the fresh deployment moves the id
from 0 to 1, and closing the never-opened fresh deployment fails with
`BatchNotOpen` leaving the state intact. -/
theorem claim6_witness :
    (openBatch (openBatch (initialState 0) 0).state 0).state.currentBatchId
      = (openBatch (initialState 0) 0).state.currentBatchId + 1 ∧
    (closeBatch (initialState 0) 0).err = some Err.BatchNotOpen ∧
    (closeBatch (initialState 0) 0).state = initialState 0 := by
  have h := claim6_reopen_increments_and_close_closed_fails (initialState 0) 0
  exact ⟨(h.1 (by decide)).2.1, (h.2 rfl).2.2.2 rfl rfl, (h.2 rfl).2.1⟩

/-- Claim C7: `submitPlayerWealth` fails exactly when the caller is not a
provider, the contract is paused, the caller's submission cooldown has
not elapsed, the batch is closed, or the handle is uninitialized; on
success it overwrites that player's ciphertext (leaving all other
players' slots unchanged), stamps the provider's submission time with the
current time, and emits the submission event. -/
theorem claim7_submit_failure_conditions_and_overwrite
    (st : ContractState) (sender now playerId : Nat) (w : CT) :
    ((submitPlayerWealth st sender now playerId w).err.isSome = true ↔
      (st.providers sender = false ∨ st.paused = true ∨
        now < st.lastSubmissionTime sender + st.cooldownSeconds ∨
        st.batchOpen = false ∨ w.isInit = false)) ∧
    ((submitPlayerWealth st sender now playerId w).err = none →
      (submitPlayerWealth st sender now playerId w).state.encryptedPlayerWealth playerId
        = w ∧
      (∀ q, q ≠ playerId →
        (submitPlayerWealth st sender now playerId w).state.encryptedPlayerWealth q
          = st.encryptedPlayerWealth q) ∧
      (submitPlayerWealth st sender now playerId w).state.lastSubmissionTime sender = now ∧
      (submitPlayerWealth st sender now playerId w).events
        = [Event.WealthSubmitted sender playerId w]) := by
  unfold submitPlayerWealth
  split_ifs <;> simp_all [setMap]

/-- Witness for C7: provider 0's submission for player 1 at time 30
succeeds and overwrites player 1's slot with `ext 42` while stamping the
provider's submission time. -/
theorem claim7_witness :
    (submitPlayerWealth stOpen 0 30 1 (CT.ext 42)).state.encryptedPlayerWealth 1
      = CT.ext 42 ∧
    (submitPlayerWealth stOpen 0 30 1 (CT.ext 42)).state.lastSubmissionTime 0 = 30 := by
  have h := (claim7_submit_failure_conditions_and_overwrite stOpen 0 30 1
    (CT.ext 42)).2 (by decide)
  exact ⟨h.1, h.2.2.1⟩

/-- The plaintext carried by a freshly derived threshold handle:
`base + rate * id` reduced modulo 2^32. -/
theorem evalCT_threshold_value (env : Nat → Nat) (n : Nat) :
    evalCT env (CT.add (CT.enc 1000) (CT.mul (CT.enc 50) (CT.enc n)))
      = (1000 + 50 * n) % W32 := by
  show ((1000 % W32) + ((50 % W32) * (n % W32)) % W32) % W32 = (1000 + 50 * n) % W32
  conv_rhs => rw [Nat.add_mod, Nat.mul_mod]

/-- Claim C8: whenever `openBatch` succeeds, the escape-velocity threshold
handle is exactly `baseThreshold + growthRate * batchId` — the homomorphic
sum of the just-configured base threshold (trivial encryption of 1000) and
the product of the growth-rate constant (trivial encryption of 50) with
the batch id encoded as a scalar — and its plaintext value is
`(1000 + 50 * batchId) mod 2^32`. -/
theorem claim8_threshold_is_base_plus_rate_times_id
    (st : ContractState) (sender : Nat) (env : Nat → Nat)
    (h : (openBatch st sender).err = none) :
    (openBatch st sender).state.encryptedBaseThreshold = CT.enc 1000 ∧
    (openBatch st sender).state.encryptedThresholdGrowthRate = CT.enc 50 ∧
    (openBatch st sender).state.encryptedEscapeVelocityThreshold
      = CT.add ((openBatch st sender).state.encryptedBaseThreshold)
          (CT.mul ((openBatch st sender).state.encryptedThresholdGrowthRate)
            (CT.enc (openBatch st sender).state.currentBatchId)) ∧
    evalCT env (openBatch st sender).state.encryptedEscapeVelocityThreshold
      = (1000 + 50 * (openBatch st sender).state.currentBatchId) % W32 := by
  unfold openBatch at h ⊢
  split_ifs at h ⊢ <;>
    simp_all [calculateInitialThreshold, CT.isInit, evalCT_threshold_value]

/-- Witness for C8: reopening while batch 0 is open yields batch id 1 and
threshold plaintext 1050. -/
theorem claim8_witness :
    (openBatch stOpen 0).state.encryptedEscapeVelocityThreshold
      = CT.add (CT.enc 1000) (CT.mul (CT.enc 50) (CT.enc 1)) ∧
    evalCT (fun _ => 0) (openBatch stOpen 0).state.encryptedEscapeVelocityThreshold
      = 1050 := by
  have h := claim8_threshold_is_base_plus_rate_times_id stOpen 0 (fun _ => 0) (by decide)
  have hid : (openBatch stOpen 0).state.currentBatchId = 1 := by decide
  refine ⟨?_, ?_⟩
  · rw [h.2.2.1, h.1, h.2.1, hid]
  · rw [h.2.2.2, hid]
    decide

/-- An operation fails cleanly when a reported error comes with the
pre-state intact and no events emitted. -/
def failsClean (st : ContractState) (o : Outcome) : Prop :=
  o.err.isSome = true → o.state = st ∧ o.events = []

/-- Claim C9: every failing operation of the contract is atomic — on every
input on which an operation reports an error, the post-state equals the
pre-state and no event is emitted (no partial writes precede any failed
check). -/
theorem claim9_failures_mutate_nothing
    (st : ContractState)
    (sender now playerId requestId newOwner addr n wealthClear thresholdClear : Nat)
    (w : CT) (escapedClear proofOk : Bool) :
    failsClean st (transferOwnership st sender newOwner) ∧
    failsClean st (addProvider st sender addr) ∧
    failsClean st (removeProvider st sender addr) ∧
    failsClean st (pause st sender) ∧
    failsClean st (unpause st sender) ∧
    failsClean st (setCooldownSeconds st sender n) ∧
    failsClean st (openBatch st sender) ∧
    failsClean st (closeBatch st sender) ∧
    failsClean st (submitPlayerWealth st sender now playerId w) ∧
    failsClean st (requestEscapeCheck st sender now playerId requestId) ∧
    failsClean st (myCallback st sender requestId wealthClear thresholdClear
      escapedClear proofOk) := by
  refine ⟨?_, ?_, ?_, ?_, ?_, ?_, ?_, ?_, ?_, ?_, ?_⟩ <;>
  · simp only [failsClean, transferOwnership, addProvider, removeProvider, pause, unpause,
      setCooldownSeconds, openBatch, closeBatch, submitPlayerWealth, requestEscapeCheck,
      myCallback, calculateInitialThreshold, CT.isInit]
    split_ifs <;> simp_all

/-- Witness for C9: `closeBatch` on the fresh deployment (no batch open)
reports an error and leaves storage and the event log untouched. -/
theorem claim9_witness :
    (closeBatch (initialState 0) 0).state = initialState 0 ∧
    (closeBatch (initialState 0) 0).events = [] := by
  exact (claim9_failures_mutate_nothing (initialState 0) 0 0 0 7 7 3 5 0 0
    CT.uninit false false).2.2.2.2.2.2.2.1 (by decide)
